import Mathlib

/-!
Verification of the conversation-orchestration core of the store-helper-bot
repository against its natural-language specification.

The Python sources are shallowly embedded: pure fragments become Lean
functions, the database and the language model become explicit parameters
(operation journals, outcome oracles), and Python-level exceptions become
`Except`/`Option` results.  Each definition is translated from the source
file named in its doc comment.
-/

namespace StoreBot

/-! ## Python primitives

Small executable models of the Python string/dict operations the sources
use: `str.strip`, `str.capitalize`, `str.upper`, `str.replace('_',' ')`,
and `dict(items)` (last value wins, first position kept). -/

/-- Python whitespace for `str.strip()` and the regex class `\s`
(ASCII subset: space, tab, newline, carriage return, vertical tab,
form feed). -/
def pyIsSpace (c : Char) : Bool :=
  c = ' ' || c = '\t' || c = '\n' || c = '\r' || c = '\x0b' || c = '\x0c'

/-- Python `str.strip()` with no arguments. -/
def pyStrip (s : String) : String :=
  String.mk (((s.data.dropWhile pyIsSpace).reverse.dropWhile pyIsSpace).reverse)

/-- Python truthiness test `not content or not content.strip()`:
true iff the string is empty or whitespace-only. -/
def pyBlank (s : String) : Bool :=
  (pyStrip s).isEmpty

/-- Python `str.capitalize()`: first character upper-cased, all remaining
characters lower-cased. -/
def pyCapitalize (s : String) : String :=
  match s.data with
  | [] => ""
  | c :: rest => String.mk (c.toUpper :: rest.map Char.toLower)

/-- Python `str.upper()` (ASCII). -/
def pyUpper (s : String) : String :=
  String.mk (s.data.map Char.toUpper)

/-- Python `k.replace('_', ' ')`. -/
def underscoreToSpace (s : String) : String :=
  String.mk (s.data.map (fun c => if c = '_' then ' ' else c))

/-- The apostrophe character, used in several source message strings. -/
def sq : String := String.mk [Char.ofNat 39]

/-! ## Python values handed back by the store / product providers

The store-info provider returns plain dicts/lists/strings
(`app/services/store.py`); the catalog provider returns parsed JSON.
The tools only distinguish dict, list/tuple and scalar. -/

/-- A Python value as seen by the tool formatting code: a scalar
(string, int, bool), a list, or a string-keyed dict. -/
inductive PyVal where
  | s (v : String)
  | i (v : Int)
  | b (v : Bool)
  | list (xs : List PyVal)
  | dict (kvs : List (String × PyVal))
deriving Repr

mutual
/-- Python `str(v)` for the values above.  Containers are rendered in
Python `repr` style (string elements quoted with single quotes; escaping
inside quoted strings is not modelled as no claim depends on it). -/
def pyStr : PyVal → String
  | .s v => v
  | .i v => toString v
  | .b true => "True"
  | .b false => "False"
  | .list xs => "[" ++ String.intercalate ", " (pyReprList xs) ++ "]"
  | .dict kvs => "\x7b" ++ String.intercalate ", " (pyReprKvs kvs) ++ "\x7d"

/-- Python `repr(v)` applied elementwise to a list. -/
def pyReprList : List PyVal → List String
  | [] => []
  | x :: xs => pyRepr x :: pyReprList xs

/-- Python `repr` of each `key: value` entry of a dict. -/
def pyReprKvs : List (String × PyVal) → List String
  | [] => []
  | (k, v) :: kvs => (sq ++ k ++ sq ++ ": " ++ pyRepr v) :: pyReprKvs kvs

/-- Python `repr(v)`: like `str` but strings are quoted. -/
def pyRepr : PyVal → String
  | .s v => sq ++ v ++ sq
  | v => pyStr v
end

/-- Insert into a Python dict under construction: if the key exists its
value is overwritten in place, otherwise the pair is appended. -/
def dictInsert {α : Type} : List (String × α) → String → α → List (String × α)
  | [], k, v => [(k, v)]
  | (k', v') :: rest, k, v =>
      if k' = k then (k', v) :: rest else (k', v') :: dictInsert rest k v

/-- Python `dict(items)` (also the dict built by `json.loads`): duplicate
keys keep the first position and the last value. -/
def pyDict {α : Type} (items : List (String × α)) : List (String × α) :=
  items.foldl (fun acc kv => dictInsert acc kv.1 kv.2) []

/-! ## Tool result formatting (`app/langchain/tools.py`)

`get_store_data` (lines 163-187) and `get_products_data` (lines 266-294)
contain the identical inline `flatten_dict` helper and formatting block;
it is embedded once. -/

/-- The source's key extension
`new_key = f"{parent_key}{sep}{k}" if parent_key else k` with the default
separator `' '`. -/
def joinKey (parent_key k : String) : String :=
  if parent_key = "" then k else parent_key ++ " " ++ k

/-- The `items` accumulation of the inline `flatten_dict(d, parent_key, sep)`
(sep is always the single space): nested dicts recurse with the extended
key, everything else is emitted with the joined key.  Each recursive call
goes through `dict(...)` as in the source (`return dict(items)`). -/
def flattenItems : List (String × PyVal) → String → List (String × PyVal)
  | [], _ => []
  | (k, v) :: rest, parent_key =>
      match v with
      | .dict kvs =>
          pyDict (flattenItems kvs (joinKey parent_key k)) ++ flattenItems rest parent_key
      | _ => (joinKey parent_key k, v) :: flattenItems rest parent_key

/-- `flatten_dict(d, parent_key='', sep=' ')` from the source: flatten a
nested dict, joining nested keys with a space. -/
def flatten_dict (d : List (String × PyVal)) (parent_key : String) : List (String × PyVal) :=
  pyDict (flattenItems d parent_key)

/-- One formatted line of the dict branch:
`f"- {k.replace('_', ' ').capitalize()}: {v}"`. -/
def formatLine (kv : String × PyVal) : String :=
  "- " ++ pyCapitalize (underscoreToSpace kv.1) ++ ": " ++ pyStr kv.2

/-- The result-formatting block shared by both tools: dicts are flattened
and rendered one bullet line per flattened key, lists/tuples one bullet
per item, anything else is `str`-ified. -/
def formatToolResult : PyVal → String
  | .dict kvs =>
      String.intercalate "\n" ((flatten_dict kvs "").map formatLine)
  | .list xs =>
      String.intercalate "\n" (xs.map (fun item => "- " ++ pyStr item))
  | v => pyStr v

/-! ## The store and product tools (`app/langchain/tools.py`)

The providers (`StoreService`, `ProductService`) are external collaborators;
they are passed in as a function from the dispatched intent to either a
result value or a raised error message, so the tool body around the call
is the part being verified.  A tool invocation yields the `ToolMessage`
content placed in the returned `Command` plus whether the provider was
actually called. -/

/-- Observable outcome of one store/product tool call. -/
structure ToolReply where
  message : String
  providerCalled : Bool
deriving Repr

/-- The seven intents `get_store_data` dispatches on. -/
def storeIntents : List String :=
  ["store_info", "store_hours", "store_contact", "store_promotions",
   "store_payment_methods", "store_social_media", "store_location"]

/-- The four intents `get_products_data` dispatches on. -/
def productIntents : List String :=
  ["product_list", "product_categories", "product_details",
   "product_list_by_category"]

/-- `f"Intent '{intent}' is not supported."` -/
def notSupportedMsg (intent : String) : String :=
  "Intent " ++ sq ++ intent ++ sq ++ " is not supported."

/-- `get_store_data(intent, tool_call_id)` (tools.py lines 122-199):
unknown intent short-circuits, otherwise the provider is called and the
result formatted; a provider exception becomes an error-prefixed message. -/
def get_store_data (provider : String → Except String PyVal) (intent : String) : ToolReply :=
  if intent ∉ storeIntents then
    ⟨notSupportedMsg intent, false⟩
  else
    match provider intent with
    | .ok result => ⟨formatToolResult result, true⟩
    | .error e => ⟨"Error fetching store data: " ++ e, true⟩

/-- Python truthiness of an `Optional[str]` argument (`not category`):
`None` and the empty string are both falsy. -/
def pyTruthyOptStr : Option String → Bool
  | none => false
  | some s => s ≠ ""

/-- Python truthiness of an `Optional[int]` argument (`not product_id`):
`None` and `0` are both falsy. -/
def pyTruthyOptInt : Option Int → Bool
  | none => false
  | some n => n ≠ 0

/-- `get_products_data(intent, tool_call_id, category=None, product_id=None)`
(tools.py lines 203-306): validates the intent, then the truthiness of
`category` (for `product_list_by_category`) and of `product_id` (for
`product_details`) before calling the provider. -/
def get_products_data (provider : String → Except String PyVal)
    (intent : String) (category : Option String) (product_id : Option Int) : ToolReply :=
  if intent ∉ productIntents then
    ⟨notSupportedMsg intent, false⟩
  else if intent = "product_list_by_category" ∧ ¬ pyTruthyOptStr category then
    ⟨"Please provide a category.", false⟩
  else if intent = "product_details" ∧ ¬ pyTruthyOptInt product_id then
    ⟨"Please provide a product ID.", false⟩
  else
    match provider intent with
    | .ok result => ⟨formatToolResult result, true⟩
    | .error e => ⟨"Error fetching product data: " ++ e, true⟩

/-! ## A model of `json.loads` (Python standard library)

`get_json_content` in `app/langchain/model.py` feeds candidate substrings
to `json.loads`.  The decoder is modelled as a strict recursive-descent
parser over the characters: values are `null`, booleans, integers, strings
(with the standard escapes), arrays and objects; surrounding whitespace is
allowed and the whole string must be consumed.  Modelling restriction:
fractional and exponent number forms are rejected rather than parsed
(no claim touches non-integer numbers). -/

/-- A decoded JSON value. -/
inductive Json where
  | null
  | bool (b : Bool)
  | num (n : Int)
  | str (s : String)
  | arr (xs : List Json)
  | obj (kvs : List (String × Json))
deriving Repr

/-- Whether a decoded value is a JSON object (a Python dict). -/
def Json.isObj : Json → Bool
  | .obj _ => true
  | _ => false

/-- `dict.get(k, default)` on a decoded object. -/
def Json.getD (j : Json) (k : String) (d : Json) : Json :=
  match j with
  | .obj kvs =>
      match kvs.find? (fun kv => kv.1 = k) with
      | some kv => kv.2
      | none => d
  | _ => d

/-- Whether a decoded object has the given key. -/
def Json.hasKey (j : Json) (k : String) : Bool :=
  match j with
  | .obj kvs => kvs.any (fun kv => kv.1 = k)
  | _ => false

/-- JSON whitespace (RFC 8259, as accepted by `json.loads`). -/
def jsonWs (c : Char) : Bool :=
  c = ' ' || c = '\t' || c = '\n' || c = '\r'

/-- Value of a hexadecimal digit, for `\u` escapes. -/
def hexVal (c : Char) : Option Nat :=
  if '0' ≤ c ∧ c ≤ '9' then some (c.toNat - '0'.toNat)
  else if 'a' ≤ c ∧ c ≤ 'f' then some (c.toNat - 'a'.toNat + 10)
  else if 'A' ≤ c ∧ c ≤ 'F' then some (c.toNat - 'A'.toNat + 10)
  else none

/-- Body of a JSON string after the opening quote: plain characters
(control characters rejected, as in strict `json.loads`), the short
escapes, and `\uXXXX`. -/
def parseStringBody : List Char → List Char → Option (String × List Char)
  | acc, '"' :: rest => some (String.mk acc.reverse, rest)
  | acc, '\\' :: '"' :: rest => parseStringBody ('"' :: acc) rest
  | acc, '\\' :: '\\' :: rest => parseStringBody ('\\' :: acc) rest
  | acc, '\\' :: '/' :: rest => parseStringBody ('/' :: acc) rest
  | acc, '\\' :: 'b' :: rest => parseStringBody ('\x08' :: acc) rest
  | acc, '\\' :: 'f' :: rest => parseStringBody ('\x0c' :: acc) rest
  | acc, '\\' :: 'n' :: rest => parseStringBody ('\n' :: acc) rest
  | acc, '\\' :: 'r' :: rest => parseStringBody ('\r' :: acc) rest
  | acc, '\\' :: 't' :: rest => parseStringBody ('\t' :: acc) rest
  | acc, '\\' :: 'u' :: h1 :: h2 :: h3 :: h4 :: rest =>
      match hexVal h1, hexVal h2, hexVal h3, hexVal h4 with
      | some a, some b, some c, some d =>
          parseStringBody (Char.ofNat (((a * 16 + b) * 16 + c) * 16 + d) :: acc) rest
      | _, _, _, _ => none
  | acc, c :: rest =>
      if c.toNat < 32 ∨ c = '\\' then none else parseStringBody (c :: acc) rest
  | _, [] => none

/-- Digits of an integer literal. -/
def takeDigits (cs : List Char) : List Char × List Char :=
  (cs.takeWhile Char.isDigit, cs.dropWhile Char.isDigit)

/-- Numeric value of a digit string. -/
def digitsToNat (ds : List Char) : Nat :=
  ds.foldl (fun n c => n * 10 + (c.toNat - '0'.toNat)) 0

/-- A JSON integer literal at the head of the input: optional minus sign,
then digits with no redundant leading zero; fractional/exponent continuations
are rejected (see the modelling note above). -/
def parseIntLit (cs : List Char) : Option (Int × List Char) :=
  let (neg, cs') := match cs with
    | '-' :: t => (true, t)
    | t => (false, t)
  match takeDigits cs' with
  | ([], _) => none
  | (ds, rest) =>
      if ds.length > 1 ∧ ds.headI = '0' then none
      else match rest with
        | '.' :: _ => none
        | 'e' :: _ => none
        | 'E' :: _ => none
        | _ => some (if neg then -(digitsToNat ds : Int) else (digitsToNat ds : Int), rest)

mutual
/-- One JSON value at the head of the input (leading whitespace allowed),
returning the remaining input.  The fuel argument strictly decreases on
every recursive call; the top-level entry point supplies enough of it for
any input of the given length. -/
def parseVal : Nat → List Char → Option (Json × List Char)
  | 0, _ => none
  | fuel + 1, cs =>
    match cs.dropWhile jsonWs with
    | '{' :: rest =>
        (match rest.dropWhile jsonWs with
         | '}' :: rest' => some (.obj [], rest')
         | rest' => parseObjItems fuel rest' [])
    | '[' :: rest =>
        (match rest.dropWhile jsonWs with
         | ']' :: rest' => some (.arr [], rest')
         | rest' => parseArrItems fuel rest' [])
    | '"' :: rest =>
        (match parseStringBody [] rest with
         | some (s, rest') => some (.str s, rest')
         | none => none)
    | 't' :: 'r' :: 'u' :: 'e' :: rest => some (.bool true, rest)
    | 'f' :: 'a' :: 'l' :: 's' :: 'e' :: rest => some (.bool false, rest)
    | 'n' :: 'u' :: 'l' :: 'l' :: rest => some (.null, rest)
    | rest =>
        (match parseIntLit rest with
         | some (n, rest') => some (.num n, rest')
         | none => none)

/-- Object members from the first key onward (the empty object was handled
by the caller): `"key" : value` separated by commas, closed by `}`.
Duplicate keys resolve as Python dicts do. -/
def parseObjItems : Nat → List Char → List (String × Json) → Option (Json × List Char)
  | 0, _, _ => none
  | fuel + 1, cs, acc =>
    match cs.dropWhile jsonWs with
    | '"' :: rest =>
        (match parseStringBody [] rest with
         | some (k, rest') =>
             (match rest'.dropWhile jsonWs with
              | ':' :: rest'' =>
                  (match parseVal fuel rest'' with
                   | some (v, rest3) =>
                       (match rest3.dropWhile jsonWs with
                        | ',' :: rest4 => parseObjItems fuel rest4 (acc ++ [(k, v)])
                        | '}' :: rest4 => some (.obj (pyDict (acc ++ [(k, v)])), rest4)
                        | _ => none)
                   | none => none)
              | _ => none)
         | none => none)
    | _ => none

/-- Array elements from the first one onward, separated by commas, closed
by `]`. -/
def parseArrItems : Nat → List Char → List Json → Option (Json × List Char)
  | 0, _, _ => none
  | fuel + 1, cs, acc =>
    match parseVal fuel cs with
    | some (v, rest) =>
        (match rest.dropWhile jsonWs with
         | ',' :: rest' => parseArrItems fuel rest' (acc ++ [v])
         | ']' :: rest' => some (.arr (acc ++ [v]), rest')
         | _ => none)
    | none => none
end

/-- `json.loads(s)`: one JSON value, optionally surrounded by whitespace,
consuming the entire string; anything else raises `JSONDecodeError`,
modelled as `none`. -/
def jsonLoads (s : String) : Option Json :=
  match parseVal (2 * s.data.length + 4) s.data with
  | some (v, rest) => if rest.dropWhile jsonWs = [] then some v else none
  | none => none

/-! ## The response parser `get_json_content` (`app/langchain/model.py` lines 386-410)

The two `re.findall` scans are modelled by direct leftmost, non-overlapping
matching of the concrete patterns used in the source:
`` ```json\s*(\{.*?\})\s*``` `` with `re.DOTALL`, and the bare `\{.*?\}`. -/

/-- If the fenced pattern fails to close here, the lazy `.*?` keeps
consuming; this scans for the first `}` that is followed by optional
whitespace and a closing triple backtick, returning the group body
(everything after the opening brace, brace included) and the input
remaining after the closing fence. -/
def scanFencedGroup : List Char → List Char → Option (List Char × List Char)
  | acc, '}' :: rest =>
      let t := rest.dropWhile pyIsSpace
      if "```".data.isPrefixOf t then some (('}' :: acc).reverse, t.drop 3)
      else scanFencedGroup ('}' :: acc) rest
  | acc, c :: rest => scanFencedGroup (c :: acc) rest
  | _, [] => none

/-- A fenced-JSON match anchored at the current position: the literal
` ```json `, optional whitespace, then the lazily delimited brace group,
optional whitespace and the closing fence.  Returns the captured group and
the input remaining after the whole match. -/
def matchFencedAt (cs : List Char) : Option (String × List Char) :=
  if "```json".data.isPrefixOf cs then
    match (cs.drop 7).dropWhile pyIsSpace with
    | '{' :: rest =>
        (match scanFencedGroup [] rest with
         | some (body, cont) => some (String.mk ('{' :: body), cont)
         | none => none)
    | _ => none
  else none

/-- `re.findall` for the fenced pattern: try a match at each position from
the left; on success continue after the match, otherwise advance one
character. -/
def findAllFenced : Nat → List Char → List String
  | 0, _ => []
  | _, [] => []
  | fuel + 1, c :: cs =>
    match matchFencedAt (c :: cs) with
    | some (g, cont) => g :: findAllFenced fuel cont
    | none => findAllFenced fuel cs

/-- Split at the first `}`: the characters before it and those after. -/
def splitAtFirstClose : List Char → Option (List Char × List Char)
  | [] => none
  | '}' :: rest => some ([], rest)
  | c :: rest =>
      match splitAtFirstClose rest with
      | some (mid, cont) => some (c :: mid, cont)
      | none => none

/-- `re.findall(r'\{.*?\}', content, re.DOTALL)`: each match runs from a
`{` to the first following `}`; scanning resumes after the match. -/
def findAllBraces : Nat → List Char → List String
  | 0, _ => []
  | _, [] => []
  | fuel + 1, c :: rest =>
      if c = '{' then
        match splitAtFirstClose rest with
        | some (mid, cont) => String.mk ('{' :: (mid ++ ['}'])) :: findAllBraces fuel cont
        | none => []
      else findAllBraces fuel rest

/-- Try `json.loads` on the candidates, last found first, keeping the first
success (the loop `for bloque in reversed(bloques)` applied to the already
reversed list). -/
def tryLoadFirst : List String → Option Json
  | [] => none
  | b :: rest =>
      match jsonLoads b with
      | some parsed => some parsed
      | none => tryLoadFirst rest

/-- `get_json_content(content)` from `app/langchain/model.py`: empty or
whitespace-only input returns the fixed "Empty response" dict; otherwise
fenced JSON blocks are collected (falling back to bare brace substrings
when none are found) and decoded last-found first; if none decodes, the
fixed "Invalid or missing JSON" dict is returned. -/
def get_json_content (content : String) : Json :=
  if pyBlank content then
    .obj [("reply", .str "Empty response"), ("intent", .str "other")]
  else
    let bloques := findAllFenced content.data.length content.data
    let bloques :=
      if bloques.isEmpty then findAllBraces content.data.length content.data
      else bloques
    match tryLoadFirst bloques.reverse with
    | some parsed => parsed
    | none => .obj [("reply", .str "Invalid or missing JSON"), ("intent", .str "other")]

/-! ## The conversation engine (`app/langchain/model.py` lines 326-384)

`run_graph_once_with_interrupt(thread_id, current_state)` appends the
system prompt to the state's message list, invokes the compiled graph and
post-processes the result.  The graph invocation (model plus tool loop)
is an external collaborator; its observable outcomes are captured by
`GraphOutcome`: the call raised, the call returned something that is not a
dict carrying `"messages"`, or it returned a message list whose entries
carry `content` payloads. -/

/-- Message roles of the engine state. -/
inductive Role where
  | system
  | user
  | assistant
  | tool
deriving Repr, DecidableEq

/-- A role-tagged message of the engine state. -/
structure ChatMsg where
  role : Role
  content : String
deriving Repr, DecidableEq

/-- The `content` attribute of a graph message: a string, or a non-string
payload (LangChain also produces lists there).  A falsy non-string (empty
list) and a truthy non-string behave differently inside
`get_json_content`, so they are distinguished. -/
inductive PyText where
  | ofStr (s : String)
  | emptyList
  | otherNonStr
deriving Repr, DecidableEq

/-- Observable outcome of `await graph.ainvoke(...)`. -/
inductive GraphOutcome where
  | raises
  | noMessagesKey
  | messages (contents : List PyText)
deriving Repr, DecidableEq

/-- The system prompt of `run_graph_once_with_interrupt`
(`model.py` lines 327-357). -/
def systemPromptText : String :=
  "You are an assistant that always responds in JSON format with the following fields:\n" ++
  "- `reply`: your natural language response to the user\n" ++
  "- `intent`: a single word identifying the user" ++ sq ++ "s intent\n\n" ++
  "You must classify the user" ++ sq ++ "s intent using **only one** of the following categories:\n" ++
  "- general_question\n- greeting\n- store_info\n- store_hours\n- store_contact\n" ++
  "- store_promotions\n- store_payment_methods\n- store_social_media\n- store_location\n" ++
  "- product_list\n- product_categories\n- product_details\n- product_list_by_category\n- other\n\n" ++
  "If the user asks for something you cannot answer, call the `human_assistance` tool\n" ++
  "If the user asks about the store, you may call the appropriate store info tool `get_store_data`.\n" ++
  "If the user asks about the products, you may call the appropriate product info tool `get_products_data`.\n" ++
  "Always respond in this exact JSON format:\n" ++
  "\x7b\"reply\": \"<your reply here>\", \"intent\": \"<one of the above categories>\"\x7d\n\n" ++
  "Example:\nUser: " ++ sq ++ "Hi there!" ++ sq ++ "\n" ++
  "Response: \x7b\"reply\": \"Hello! How can I assist you today?\", \"intent\": \"greeting\"\x7d"

/-- The system message appended by every engine invocation. -/
def system_message : ChatMsg := ⟨.system, systemPromptText⟩

/-- The engine-internal conversation state threaded through a turn. -/
structure EngState where
  messages : List ChatMsg
deriving Repr, DecidableEq

/-- The `{content, intent}` dict built by the engine from the parsed
model output.  `dict.get` can hand back arbitrary JSON values, so both
fields are `Json`. -/
structure EngineReply where
  content : Json
  intent : Json
deriving Repr

/-- The fixed fallback dict `{"content": "No reply provided.",
"intent": "other"}` of the result-handling path. -/
def defaultEngineReply : EngineReply :=
  ⟨.str "No reply provided.", .str "other"⟩

/-- `get_json_content(content)` as invoked on a message `content`
attribute that may not be a string: a falsy non-string takes the
"Empty response" branch, a truthy non-string raises at
`content.strip()`. -/
def getJsonContentOn : PyText → Except Unit Json
  | .ofStr s => .ok (get_json_content s)
  | .emptyList => .ok (.obj [("reply", .str "Empty response"), ("intent", .str "other")])
  | .otherNonStr => .error ()

/-- `run_graph_once_with_interrupt` (`model.py` lines 326-384): the system
message is appended to `current_state["messages"]` before the guarded
region; a graph exception (and the `IndexError` of `messages[-1]` on an
empty list) is caught by the outer handler, which only logs — the
function then returns `None`.  A result without a usable `messages` list,
or a parser-side exception, falls through to the fixed default reply. -/
def run_graph_once_with_interrupt (g : GraphOutcome) (current_state : EngState) :
    Option EngineReply × EngState :=
  let st : EngState := ⟨current_state.messages ++ [system_message]⟩
  match g with
  | .raises => (none, st)
  | .noMessagesKey => (some defaultEngineReply, st)
  | .messages contents =>
    match contents.getLast? with
    | none => (none, st)
    | some c =>
      match getJsonContentOn c with
      | .ok parsed =>
          (some ⟨parsed.getD "reply" (.str "No reply provided."),
                 parsed.getD "intent" (.str "other")⟩, st)
      | .error _ => (some defaultEngineReply, st)

/-- Number of system messages in a state's message list. -/
def countSystemMessages (msgs : List ChatMsg) : Nat :=
  (msgs.filter (fun m => m.role = Role.system)).length

/-! ## The chat persistence service (`app/services/chat.py`) -/

/-- The transfer-relevant columns of a `Chat` row
(`app/db/models/chat.py`). -/
structure Chat where
  client_name : Option String
  client_email : Option String
  transferred_to_operator : Bool
  operator_transfer_time : Option Nat
  transfer_inquiry_id : Option String
  transfer_query : Option String
deriving Repr, DecidableEq

/-- A fresh, untransferred chat row. -/
def Chat.fresh : Chat := ⟨none, none, false, none, none, none⟩

/-- `ChatTransferRequest` (`app/schemas/chat.py` lines 141-156). -/
structure ChatTransferRequest where
  operator_email : String
  transfer_reason : Option String
deriving Repr, DecidableEq

/-- `ChatService.transfer_to_operator(db, *, chat_id, transfer_data)`
(`app/services/chat.py` lines 57-80): looks the chat up (absent chat gives
`None`), marks it transferred, timestamps the transfer and appends a BOT
message naming the operator.  Returns the updated chat and the content of
the appended message. -/
def ChatService.transfer_to_operator (chat : Option Chat)
    (transfer_data : ChatTransferRequest) (now : Nat) :
    Option (Chat × String) :=
  match chat with
  | none => none
  | some c =>
      some ({ c with transferred_to_operator := true, operator_transfer_time := some now },
            "Chat transferred to operator: " ++ transfer_data.operator_email)

/-- `ChatService.save_client_info_for_transfer(db, *, chat_id, client_name,
client_email, query=None, inquiry_id=None)` (`app/services/chat.py` lines
126-144): stores the client contact data, the query and the inquiry id on
the chat row and marks it transferred. -/
def ChatService.save_client_info_for_transfer (chat : Option Chat)
    (client_name client_email : String) (query inquiry_id : Option String)
    (now : Nat) : Option Chat :=
  match chat with
  | none => none
  | some c =>
      some { c with
        client_name := some client_name,
        client_email := some client_email,
        transferred_to_operator := true,
        operator_transfer_time := some now,
        transfer_inquiry_id := inquiry_id,
        transfer_query := query }

/-! ## Python keyword-argument binding

The `human_assistance` tool invokes
`self.chat_service.transfer_to_operator(db=..., chat_id=..., client_name=...,
client_email=..., query=..., inquiry_id=...)` (tools.py lines 76-83).
Python binds the supplied keywords against the callee signature before the
body runs; an unexpected keyword raises `TypeError` at the call site. -/

/-- Whether a call supplying exactly the given keyword arguments binds
against a signature with the given parameter names, all required. -/
def kwargsBindable (provided params required : List String) : Bool :=
  provided.all (fun k => params.contains k) && required.all (fun k => provided.contains k)

/-- The keyword names the tool supplies to the persistence call. -/
def humanAssistanceCallKwargs : List String :=
  ["db", "chat_id", "client_name", "client_email", "query", "inquiry_id"]

/-- The parameter names of `ChatService.transfer_to_operator` (besides
`self`): `db`, then keyword-only `chat_id` and `transfer_data`, none with
a default. -/
def transferToOperatorParams : List String :=
  ["db", "chat_id", "transfer_data"]

/-- The parameter names of `ChatService.save_client_info_for_transfer`
(besides `self`): `db`, then keyword-only `chat_id`, `client_name`,
`client_email`, and optional `query` and `inquiry_id`. -/
def saveClientInfoParams : List String :=
  ["db", "chat_id", "client_name", "client_email", "query", "inquiry_id"]

/-- Required parameters of `save_client_info_for_transfer` (`query` and
`inquiry_id` carry defaults). -/
def saveClientInfoRequired : List String :=
  ["db", "chat_id", "client_name", "client_email"]

/-- Outcome of `await self.chat_service.transfer_to_operator(db=...,
chat_id=..., client_name=..., client_email=..., query=..., inquiry_id=...)`:
the keyword binding is checked first; since `client_name` is not a
parameter of `transfer_to_operator`, binding raises `TypeError` and the
callee body never runs (the `.ok` branch is unreachable — it would require
a `transfer_data` value the caller does not supply, so the chat is
returned unchanged there). -/
def transferCallAttempt (chat : Chat) : Except Unit Chat :=
  if kwargsBindable humanAssistanceCallKwargs transferToOperatorParams transferToOperatorParams then
    .ok chat
  else
    .error ()

/-! ## The `human_assistance` tool (`app/langchain/tools.py` lines 30-118) -/

/-- Observable outcome of one `human_assistance` call: the `ToolMessage`
content of the returned `Command`, the top-level state fields the
`Command` merges, whether the persistence collaborator was invoked, and
the chat row afterwards. -/
structure HAOutcome where
  message : String
  name_update : Option String
  email_update : Option String
  last_inquiry_id_update : Option String
  persistenceInvoked : Bool
  chat : Chat
deriving Repr, DecidableEq

/-- `"Sorry, now we can't register your inquiry. Please try again later."` -/
def apologyMsg : String :=
  "Sorry, now we can" ++ sq ++ "t register your inquiry. Please try again later."

/-- `"Please provide a name, email, and query."` -/
def askFieldsMsg : String := "Please provide a name, email, and query."

/-- `"An error occurred while registering your inquiry, please try again later."` -/
def persistErrorMsg : String :=
  "An error occurred while registering your inquiry, please try again later."

/-- The success confirmation, restating the inquiry id and the 24-48 hours
SLA (tools.py lines 101-105). -/
def confirmationMsg (name email inquiry_id : String) : String :=
  "Thank you, " ++ name ++ "! Your inquiry has been registered (ID: " ++ inquiry_id ++
  "). A member of our team will contact you at " ++ email ++
  " within 24-48 hours. Please include your inquiry ID in any follow-up communications."

/-- `human_assistance(name, email, query, chat_id, tool_call_id)`
(tools.py lines 32-117): a missing `chat_id` yields the apology, an empty
`name`/`email`/`query` yields the request for the fields — both without
touching persistence; otherwise the time-derived inquiry id
`f"INQ-{int(time.time())}"` is generated and the persistence call is
attempted, any exception from it being converted to the generic
retry-later message. -/
def human_assistance (name email query chat_id : String) (unixTime : Nat)
    (chat : Chat) : HAOutcome :=
  if chat_id = "" then
    ⟨apologyMsg, none, none, none, false, chat⟩
  else if name = "" ∨ email = "" ∨ query = "" then
    ⟨askFieldsMsg, none, none, none, false, chat⟩
  else
    let inquiry_id := "INQ-" ++ toString unixTime
    match transferCallAttempt chat with
    | .error _ => ⟨persistErrorMsg, none, none, none, true, chat⟩
    | .ok chat' =>
        ⟨confirmationMsg name email inquiry_id,
         some name, some email, some inquiry_id, true, chat'⟩

/-! ## The turn processor (`app/services/chat_processor.py`)

`ChatProcessor.process_message` persists the inbound CLIENT message,
obtains the assistant response, persists the BOT message and backfills the
CLIENT message's intent.  The database (`message_service`) and the
assistant are external collaborators: persistence is modelled by a journal
of operations plus a behavior oracle saying which write raises, and the
assistant by an `Except` carrying either its response dict or the raised
error's message. -/

/-- Message senders (`app/schemas/message.py`). -/
inductive Sender where
  | CLIENT
  | BOT
deriving Repr, DecidableEq

/-- The closed intent enumeration (`app/schemas/message.py` lines 16-32). -/
inductive IntentEnum where
  | GENERAL_QUESTION
  | GREETING
  | STORE_INFO
  | STORE_HOURS
  | STORE_CONTACT
  | STORE_PROMOTIONS
  | STORE_PAYMENT_METHODS
  | STORE_SOCIAL_MEDIA
  | STORE_LOCATION
  | PRODUCT_LIST
  | PRODUCT_CATEGORIES
  | PRODUCT_DETAILS
  | PRODUCT_LIST_BY_CATEGORY
  | HUMAN_ASSISTANCE
  | OTHER
deriving Repr, DecidableEq

/-- The string value of each `IntentEnum` member. -/
def IntentEnum.value : IntentEnum → String
  | .GENERAL_QUESTION => "GENERAL_QUESTION"
  | .GREETING => "GREETING"
  | .STORE_INFO => "STORE_INFO"
  | .STORE_HOURS => "STORE_HOURS"
  | .STORE_CONTACT => "STORE_CONTACT"
  | .STORE_PROMOTIONS => "STORE_PROMOTIONS"
  | .STORE_PAYMENT_METHODS => "STORE_PAYMENT_METHODS"
  | .STORE_SOCIAL_MEDIA => "STORE_SOCIAL_MEDIA"
  | .STORE_LOCATION => "STORE_LOCATION"
  | .PRODUCT_LIST => "PRODUCT_LIST"
  | .PRODUCT_CATEGORIES => "PRODUCT_CATEGORIES"
  | .PRODUCT_DETAILS => "PRODUCT_DETAILS"
  | .PRODUCT_LIST_BY_CATEGORY => "PRODUCT_LIST_BY_CATEGORY"
  | .HUMAN_ASSISTANCE => "HUMAN_ASSISTANCE"
  | .OTHER => "OTHER"

/-- `IntentEnum(raw)`: the member whose value equals the raw string, or
`None` (the `ValueError` case). -/
def intentOfString (raw : String) : Option IntentEnum :=
  [IntentEnum.GENERAL_QUESTION, .GREETING, .STORE_INFO, .STORE_HOURS,
   .STORE_CONTACT, .STORE_PROMOTIONS, .STORE_PAYMENT_METHODS,
   .STORE_SOCIAL_MEDIA, .STORE_LOCATION, .PRODUCT_LIST, .PRODUCT_CATEGORIES,
   .PRODUCT_DETAILS, .PRODUCT_LIST_BY_CATEGORY, .HUMAN_ASSISTANCE,
   .OTHER].find? (fun i => i.value = raw)

/-- The assistant's response dict as consumed by `_parse_response`:
`content` is a string when present and of string type (`none` covers an
absent or non-string value, both of which take the fallback), `intent` is
the raw intent string (`none` covers an absent value, which defaults to
`IntentEnum.OTHER`, and a non-string value, whose `.upper()` raises
`AttributeError` into the same `OTHER` fallback). -/
structure EngineResponse where
  content : Option String
  intent : Option String
deriving Repr, DecidableEq

/-- `ChatProcessor._parse_response` (`chat_processor.py` lines 95-109):
empty or non-string content is replaced by the fixed apology text; the
intent string is upper-cased and coerced into the enumeration, all
failures landing on `OTHER`. -/
def parse_response (response : EngineResponse) : String × IntentEnum :=
  let content := match response.content with
    | some s => if s = "" then
        "I couldn" ++ sq ++ "t generate a response. Please try again or rephrase your question."
      else s
    | none =>
        "I couldn" ++ sq ++ "t generate a response. Please try again or rephrase your question."
  let intent_enum := match response.intent with
    | some raw =>
        (match intentOfString (pyUpper raw) with
         | some i => i
         | none => IntentEnum.OTHER)
    | none => IntentEnum.OTHER
  (content, intent_enum)

/-- A persistence operation issued during a turn: a message row created
through `message_service.create`, or the intent update of the CLIENT
message through `message_service.update`. -/
inductive DbOp where
  | createMsg (chat_id : String) (sender : Sender) (content : String)
      (intent : Option IntentEnum)
  | updateIntent (intent : IntentEnum)
deriving Repr, DecidableEq

/-- Which persistence writes raise, and with what message
(`none` = the write succeeds). -/
structure DbBehavior where
  userCreateError : Option String
  botCreateError : Option String
  intentUpdateError : Option String
deriving Repr, DecidableEq

/-- The dict `process_message` returns. -/
structure TurnResult where
  content : String
  intent : String
  success : Bool
  error : Option String
deriving Repr, DecidableEq

/-- The observable outcome of a turn: the returned dict, the journal of
persistence operations that actually committed, and the in-memory state
afterwards. -/
structure TurnOutcome where
  result : TurnResult
  ops : List DbOp
  state : List ChatMsg
deriving Repr, DecidableEq

/-- `ChatProcessor._create_error_response` (`chat_processor.py` lines
140-147). -/
def create_error_response (e : String) : TurnResult :=
  ⟨"Sorry, I encountered an error processing your request.",
   IntentEnum.OTHER.value, false, some e⟩

/-- `ChatProcessor.process_message` (`chat_processor.py` lines 17-51) with
`_process_assistant_response` (lines 73-137) inlined at its call site:
the CLIENT message is persisted and appended to the state *before* the
guarded region (a failure there propagates, modelled by `Except.error`);
everything from the assistant call through the intent update is guarded,
any exception becoming the `_create_error_response` dict. -/
def process_message (beh : DbBehavior) (assistant : Except String EngineResponse)
    (chat_id user_input : String) (state : List ChatMsg) :
    Except String TurnOutcome :=
  match beh.userCreateError with
  | some e => .error e
  | none =>
    let ops0 := [DbOp.createMsg chat_id .CLIENT user_input none]
    let st1 := state ++ [⟨Role.user, user_input⟩]
    match assistant with
    | .error e => .ok ⟨create_error_response e, ops0, st1⟩
    | .ok response =>
      let (content, intent_enum) := parse_response response
      let st2 := st1 ++ [⟨Role.assistant, content⟩]
      match beh.botCreateError with
      | some e => .ok ⟨create_error_response e, ops0, st2⟩
      | none =>
        let ops1 := ops0 ++ [DbOp.createMsg chat_id .BOT content (some intent_enum)]
        match beh.intentUpdateError with
        | some e => .ok ⟨create_error_response e, ops1, st2⟩
        | none =>
          let ops2 := ops1 ++ [DbOp.updateIntent intent_enum]
          .ok ⟨⟨content, intent_enum.value, true, none⟩, ops2, st2⟩

/-- Whether a journal entry creates a BOT message. -/
def DbOp.isBotCreate : DbOp → Bool
  | .createMsg _ .BOT _ _ => true
  | _ => false

/-- Whether a journal entry is an intent update. -/
def DbOp.isIntentUpdate : DbOp → Bool
  | .updateIntent _ => true
  | _ => false

/-! ## Spec-side renderings for the formatting claim

The spec describes the tool output as `"- Key Name: value"` lines with
nested keys joined by a space and "title-cased with underscores replaced
by spaces".  The following definitions are written from the spec's words
(not from the source) so the source renderer can be compared against
them. -/

/-- Split a character list at spaces (Python `"x y".split(' ')`
semantics, empty fields preserved). -/
def splitOnSpaces : List Char → List (List Char)
  | [] => [[]]
  | c :: rest =>
      match splitOnSpaces rest with
      | [] => [[c]]
      | w :: ws => if c = ' ' then [] :: w :: ws else (c :: w) :: ws

/-- Title-casing as the spec's `"- Key Name: value"` example shows it:
every space-separated word capitalized. -/
def titleCaseWords (s : String) : String :=
  String.intercalate " " ((splitOnSpaces s.data).map (fun w => pyCapitalize (String.mk w)))

/-- One spec-side line with per-word title casing. -/
def specLineTitle (kv : String × PyVal) : String :=
  "- " ++ titleCaseWords (underscoreToSpace kv.1) ++ ": " ++ pyStr kv.2

/-- Spec-side flattening: nested keys joined with a space, by direct
recursion on the nesting (no accumulator, no dict rebuild). -/
def specFlatten : List (String × PyVal) → List (String × PyVal)
  | [] => []
  | (k, PyVal.dict kvs) :: rest =>
      (specFlatten kvs).map (fun kv => (k ++ " " ++ kv.1, kv.2)) ++ specFlatten rest
  | (k, v) :: rest => (k, v) :: specFlatten rest

/-- Spec-side rendering with Python `capitalize` on each flattened key
(the amended form of the formatting claim). -/
def specRender : PyVal → String
  | .dict kvs =>
      String.intercalate "\n"
        ((specFlatten kvs).map
          (fun kv => "- " ++ pyCapitalize (underscoreToSpace kv.1) ++ ": " ++ pyStr kv.2))
  | .list xs => String.intercalate "\n" (xs.map (fun x => "- " ++ pyStr x))
  | v => pyStr v

/-- All dict keys in the value are nonempty, at every nesting level. -/
def keysOk : PyVal → Bool
  | .dict [] => true
  | .dict ((k, v) :: rest) => (!(k == "")) && keysOk v && keysOk (.dict rest)
  | _ => true

/-- The flattened keys of a dict. -/
def specKeys (kvs : List (String × PyVal)) : List String :=
  (specFlatten kvs).map Prod.fst

/-- For a dict value, the flattened keys are pairwise distinct (provider
data in this repository satisfies this); trivially true for non-dicts. -/
def flatKeysNodup : PyVal → Prop
  | .dict kvs => (specKeys kvs).Nodup
  | _ => True

/-! # Theorems -/

/-- Claim C10: `get_products_data("product_details", product_id=0)`
short-circuits with the "Please provide a product ID." tool message and
never calls the catalog provider; the truthiness guard makes `0`
indistinguishable from an absent `product_id`, and likewise an empty
`category` string from an absent `category` for
`product_list_by_category`. -/
theorem c10_falsy_parameter_guard (provider : String → Except String PyVal) :
    get_products_data provider "product_details" none (some 0) =
      ⟨"Please provide a product ID.", false⟩ ∧
    get_products_data provider "product_details" none (some 0) =
      get_products_data provider "product_details" none none ∧
    get_products_data provider "product_list_by_category" (some "") none =
      ⟨"Please provide a category.", false⟩ ∧
    get_products_data provider "product_list_by_category" (some "") none =
      get_products_data provider "product_list_by_category" none none :=
  ⟨rfl, rfl, rfl, rfl⟩

/-- Claim C7: with `chat_id` present but a `name`, `email` or `query`
empty, `human_assistance` never invokes the persistence collaborator and
returns the request for the fields; with `chat_id` missing it returns the
apology, again without touching persistence. -/
theorem c7_precondition_gating (name email query chat_id : String)
    (unixTime : Nat) (chat : Chat) :
    (chat_id = "" →
      human_assistance name email query chat_id unixTime chat =
        ⟨apologyMsg, none, none, none, false, chat⟩) ∧
    (chat_id ≠ "" → (name = "" ∨ email = "" ∨ query = "") →
      human_assistance name email query chat_id unixTime chat =
        ⟨askFieldsMsg, none, none, none, false, chat⟩) := by
  constructor
  · intro h
    simp only [human_assistance]
    rw [if_pos h]
  · intro h1 h2
    simp only [human_assistance]
    rw [if_neg h1, if_pos h2]

/-- Witness for C7 at concrete inputs: a missing `chat_id` yields the
apology; an empty `name` with a present `chat_id` yields the request for
the fields, both with persistence untouched. -/
theorem c7_precondition_gating_witness :
    human_assistance "John Doe" "john@example.com" "help" "" 1700000000 Chat.fresh =
      ⟨apologyMsg, none, none, none, false, Chat.fresh⟩ ∧
    human_assistance "" "john@example.com" "help" "chat-1" 1700000000 Chat.fresh =
      ⟨askFieldsMsg, none, none, none, false, Chat.fresh⟩ :=
  ⟨(c7_precondition_gating "John Doe" "john@example.com" "help" "" 1700000000 Chat.fresh).1 rfl,
   (c7_precondition_gating "" "john@example.com" "help" "chat-1" 1700000000 Chat.fresh).2
     (by decide) (Or.inl rfl)⟩

/-- Claim C1 (code bug): on the fully populated happy path the tool's
persistence call cannot bind — `ChatService.transfer_to_operator` has no
`client_name`/`client_email`/`query`/`inquiry_id` parameters — so the
`TypeError` is caught and the tool returns the generic retry-later
message, the chat is never marked transferred and no transfer field is
set; `save_client_info_for_transfer`, whose signature matches the call
exactly, would have performed the persistence the claim (and the spec's
`mark_transferred` interface) describes. -/
theorem c1_transfer_call_cannot_bind :
    kwargsBindable humanAssistanceCallKwargs transferToOperatorParams
      transferToOperatorParams = false ∧
    kwargsBindable humanAssistanceCallKwargs saveClientInfoParams
      saveClientInfoRequired = true ∧
    human_assistance "Test User" "test@example.com" "Test query" "test-chat-123"
        1700000000 Chat.fresh =
      ⟨persistErrorMsg, none, none, none, true, Chat.fresh⟩ ∧
    (ChatService.save_client_info_for_transfer (some Chat.fresh) "Test User"
        "test@example.com" (some "Test query") (some "INQ-1700000000") 1700000000).map
      Chat.transferred_to_operator = some true :=
  ⟨rfl, rfl, rfl, rfl⟩

/-- The engine invocation always threads the same state out: the system
message appended at the end of the message list, whatever the graph
outcome. -/
theorem run_graph_state_eq (g : GraphOutcome) (st : EngState) :
    (run_graph_once_with_interrupt g st).2 = ⟨st.messages ++ [system_message]⟩ := by
  cases g with
  | raises => rfl
  | noMessagesKey => rfl
  | messages contents =>
      cases hc : contents.getLast? with
      | none => simp [run_graph_once_with_interrupt, hc]
      | some c =>
          cases hj : getJsonContentOn c <;>
            simp [run_graph_once_with_interrupt, hc, hj]

/-- Claim C3 (counterexample): the system-message insertion is not
idempotent and not first-position.  Starting from a one-user-message
state, one engine invocation leaves the system message at the end (not as
the first element), and a second invocation adds a second copy instead of
being a no-op. -/
theorem c3_insert_counterexample :
    countSystemMessages
        ((run_graph_once_with_interrupt GraphOutcome.raises
            ⟨[⟨Role.user, "Hi"⟩]⟩).2).messages = 1 ∧
    ((run_graph_once_with_interrupt GraphOutcome.raises
        ⟨[⟨Role.user, "Hi"⟩]⟩).2).messages.head? ≠ some system_message ∧
    countSystemMessages
        ((run_graph_once_with_interrupt GraphOutcome.raises
            (run_graph_once_with_interrupt GraphOutcome.raises
              ⟨[⟨Role.user, "Hi"⟩]⟩).2).2).messages = 2 := by
  refine ⟨rfl, ?_, rfl⟩
  intro h
  have : Role.user = Role.system := congrArg (fun o => (o.getD ⟨Role.user, ""⟩).role) h
  exact Role.noConfusion this

/-- Claim C3 (amended): the engine invocation unconditionally appends the
system message to the end of the state's message list — every invocation
increases the number of system messages by exactly one and leaves a system
message as the last element, so the insertion is neither at-most-once nor
idempotent. -/
theorem c3_system_message_appended (g : GraphOutcome) (st : EngState) :
    countSystemMessages ((run_graph_once_with_interrupt g st).2).messages =
      countSystemMessages st.messages + 1 ∧
    ((run_graph_once_with_interrupt g st).2).messages.getLast? =
      some system_message := by
  rw [run_graph_state_eq]
  refine ⟨?_, List.getLast?_concat _⟩
  simp [countSystemMessages, List.filter_append, system_message]

/-- Claim C2 (counterexample): when the graph invocation raises, the
engine does not produce the safe default `{content, intent}` dict — the
exception is caught but the function returns `None`. -/
theorem c2_graph_error_returns_none :
    (run_graph_once_with_interrupt GraphOutcome.raises ⟨[]⟩).1 = none ∧
    (run_graph_once_with_interrupt GraphOutcome.raises ⟨[]⟩).1 ≠
      some defaultEngineReply :=
  ⟨rfl, fun h => Option.noConfusion
    ((rfl : (run_graph_once_with_interrupt GraphOutcome.raises ⟨[]⟩).1
        = none).symm.trans h)⟩

/-- Claim C2 (amended): the engine never propagates an exception, but only
failures inside the result handling degrade to the fixed default
`{"No reply provided.", "other"}`; an exception from the graph invocation
itself (or the `IndexError` on an empty message list) is caught and yields
no result at all (`None`). -/
theorem c2_failure_degradation (g : GraphOutcome) (st : EngState) :
    ((run_graph_once_with_interrupt g st).1 = none ↔
      g = GraphOutcome.raises ∨ g = GraphOutcome.messages []) ∧
    (g = GraphOutcome.noMessagesKey →
      (run_graph_once_with_interrupt g st).1 = some defaultEngineReply) ∧
    (∀ contents, g = GraphOutcome.messages contents →
      contents.getLast? = some PyText.otherNonStr →
      (run_graph_once_with_interrupt g st).1 = some defaultEngineReply) := by
  refine ⟨?_, ?_, ?_⟩
  · cases g with
    | raises => simp [run_graph_once_with_interrupt]
    | noMessagesKey => simp [run_graph_once_with_interrupt]
    | messages contents =>
        cases hc : contents.getLast? with
        | none =>
            have : contents = [] := List.getLast?_eq_none_iff.mp hc
            simp [run_graph_once_with_interrupt, hc, this]
        | some c =>
            have hne : contents ≠ [] := by
              intro h
              rw [h] at hc
              exact Option.noConfusion hc
            cases hj : getJsonContentOn c <;>
              simp [run_graph_once_with_interrupt, hc, hj, hne]
  · intro h
    subst h
    rfl
  · intro contents h hlast
    subst h
    simp [run_graph_once_with_interrupt, hlast, getJsonContentOn]

/-- Witness for C2 (amended) at concrete inputs: a raising graph yields no
result, a result without messages and a truthy non-string content both
yield the fixed default. -/
theorem c2_failure_degradation_witness :
    (run_graph_once_with_interrupt GraphOutcome.raises ⟨[]⟩).1 = none ∧
    (run_graph_once_with_interrupt GraphOutcome.noMessagesKey ⟨[]⟩).1 =
      some defaultEngineReply ∧
    (run_graph_once_with_interrupt
        (GraphOutcome.messages [PyText.otherNonStr]) ⟨[]⟩).1 =
      some defaultEngineReply :=
  ⟨(c2_failure_degradation GraphOutcome.raises ⟨[]⟩).1.mpr (Or.inl rfl),
   (c2_failure_degradation GraphOutcome.noMessagesKey ⟨[]⟩).2.1 rfl,
   (c2_failure_degradation (GraphOutcome.messages [PyText.otherNonStr]) ⟨[]⟩).2.2
     [PyText.otherNonStr] rfl rfl⟩

/-- Claim C8: when the assistant returns
`{content: "Hello!", intent: "GREETING"}` and persistence succeeds, the
turn persists exactly one BOT message, with intent `GREETING`; the CLIENT
message is created with null intent and receives exactly one intent
update, to `GREETING`. -/
theorem c8_round_trip (chat_id user_input : String) (state : List ChatMsg)
    (beh : DbBehavior) (h1 : beh.userCreateError = none)
    (h2 : beh.botCreateError = none) (h3 : beh.intentUpdateError = none) :
    ∃ o, process_message beh (Except.ok ⟨some "Hello!", some "GREETING"⟩)
          chat_id user_input state = Except.ok o ∧
      o.ops.filter DbOp.isBotCreate =
        [DbOp.createMsg chat_id Sender.BOT "Hello!" (some IntentEnum.GREETING)] ∧
      o.ops.filter DbOp.isIntentUpdate = [DbOp.updateIntent IntentEnum.GREETING] ∧
      o.ops.head? = some (DbOp.createMsg chat_id Sender.CLIENT user_input none) ∧
      o.result = ⟨"Hello!", "GREETING", true, none⟩ := by
  obtain ⟨u, b, i⟩ := beh
  simp only at h1 h2 h3
  subst h1 h2 h3
  refine ⟨_, rfl, rfl, rfl, rfl, rfl⟩

/-- Witness for C8 at concrete inputs. -/
theorem c8_round_trip_witness :
    ∃ o, process_message ⟨none, none, none⟩
          (Except.ok ⟨some "Hello!", some "GREETING"⟩) "chat-1" "Hi!" [] =
            Except.ok o ∧
      o.ops.filter DbOp.isBotCreate =
        [DbOp.createMsg "chat-1" Sender.BOT "Hello!" (some IntentEnum.GREETING)] ∧
      o.ops.filter DbOp.isIntentUpdate = [DbOp.updateIntent IntentEnum.GREETING] ∧
      o.ops.head? = some (DbOp.createMsg "chat-1" Sender.CLIENT "Hi!" none) ∧
      o.result = ⟨"Hello!", "GREETING", true, none⟩ :=
  c8_round_trip "chat-1" "Hi!" [] ⟨none, none, none⟩ rfl rfl rfl

/-- Claim C9: every exception raised while obtaining the assistant
response or persisting inside the guarded region is caught and converted
to a `success = false` result carrying the error message; in particular a
raising assistant leaves no BOT message in the journal. -/
theorem c9_error_containment (beh : DbBehavior) (chat_id user_input e : String)
    (state : List ChatMsg) (hu : beh.userCreateError = none) :
    (∃ o, process_message beh (Except.error e) chat_id user_input state =
          Except.ok o ∧
        o.result.success = false ∧ o.result.error = some e ∧
        o.ops.filter DbOp.isBotCreate = []) ∧
    (∀ resp em, beh.botCreateError = some em →
      ∃ o, process_message beh (Except.ok resp) chat_id user_input state =
            Except.ok o ∧
        o.result.success = false ∧ o.result.error = some em) ∧
    (∀ resp em, beh.botCreateError = none → beh.intentUpdateError = some em →
      ∃ o, process_message beh (Except.ok resp) chat_id user_input state =
            Except.ok o ∧
        o.result.success = false ∧ o.result.error = some em) := by
  obtain ⟨u, b, i⟩ := beh
  simp only at hu
  subst hu
  refine ⟨?_, ?_, ?_⟩
  · refine ⟨_, rfl, rfl, rfl, rfl⟩
  · intro resp em hb
    simp only at hb
    subst hb
    refine ⟨_, rfl, rfl, rfl⟩
  · intro resp em hb hi
    simp only at hb hi
    subst hb hi
    refine ⟨_, rfl, rfl, rfl⟩

/-- Witness for C9 at concrete inputs: a raising assistant, a raising BOT
insert, and a raising intent update each produce a caught
`success = false` result. -/
theorem c9_error_containment_witness :
    (∃ o, process_message ⟨none, none, none⟩ (Except.error "LLM down")
          "chat-1" "Hi!" [] = Except.ok o ∧
        o.result.success = false ∧ o.result.error = some "LLM down" ∧
        o.ops.filter DbOp.isBotCreate = []) ∧
    (∃ o, process_message ⟨none, some "insert failed", none⟩
          (Except.ok ⟨some "Hello!", some "GREETING"⟩) "chat-1" "Hi!" [] =
            Except.ok o ∧
        o.result.success = false ∧ o.result.error = some "insert failed") ∧
    (∃ o, process_message ⟨none, none, some "update failed"⟩
          (Except.ok ⟨some "Hello!", some "GREETING"⟩) "chat-1" "Hi!" [] =
            Except.ok o ∧
        o.result.success = false ∧ o.result.error = some "update failed") :=
  ⟨(c9_error_containment ⟨none, none, none⟩ "chat-1" "Hi!" "LLM down" [] rfl).1,
   (c9_error_containment ⟨none, some "insert failed", none⟩ "chat-1" "Hi!"
      "unused" [] rfl).2.1 ⟨some "Hello!", some "GREETING"⟩ "insert failed" rfl,
   (c9_error_containment ⟨none, none, some "update failed"⟩ "chat-1" "Hi!"
      "unused" [] rfl).2.2 ⟨some "Hello!", some "GREETING"⟩ "update failed" rfl rfl⟩

/-- Claim C6: with two fenced JSON blocks of which the first is malformed
and the second decodes, the parser returns the decoded content of the
second (most recently emitted) block — candidates are tried last-found
first and the first successful decode wins. -/
theorem c6_last_candidate_preference (content b1 b2 : String) (v : Json)
    (hb : pyBlank content = false)
    (hf : findAllFenced content.length content.data = [b1, b2])
    (h1 : jsonLoads b1 = none) (h2 : jsonLoads b2 = some v) :
    get_json_content content = v := by
  simp [get_json_content, hb, hf, tryLoadFirst, h1, h2]

/-- Witness for C6: a concrete text whose first fenced block is malformed
and whose second fenced block decodes. -/
theorem c6_last_candidate_preference_witness :
    get_json_content
        ("```json\n\x7bbad\x7d\n``` and then ```json \x7b\"reply\": \"ok\", \"intent\": \"greeting\"\x7d ```") =
      Json.obj [("reply", Json.str "ok"), ("intent", Json.str "greeting")] :=
  c6_last_candidate_preference
    ("```json\n\x7bbad\x7d\n``` and then ```json \x7b\"reply\": \"ok\", \"intent\": \"greeting\"\x7d ```")
    ("\x7bbad\x7d") ("\x7b\"reply\": \"ok\", \"intent\": \"greeting\"\x7d")
    (Json.obj [("reply", Json.str "ok"), ("intent", Json.str "greeting")])
    rfl rfl rfl rfl

/-- Whatever `parseObjItems` returns is a JSON object. -/
theorem parseObjItems_isObj :
    ∀ (fuel : Nat) (cs : List Char) (acc : List (String × Json)) (v : Json)
      (r : List Char), parseObjItems fuel cs acc = some (v, r) → v.isObj = true := by
  intro fuel
  induction fuel with
  | zero => intro cs acc v r h; exact Option.noConfusion h
  | succ fuel ih =>
      intro cs acc v r h
      simp only [parseObjItems] at h
      split at h
      · split at h
        · split at h
          · split at h
            · split at h
              · exact ih _ _ _ _ h
              · simp only [Option.some.injEq, Prod.mk.injEq] at h
                rw [← h.1]
                rfl
              · exact absurd h (by simp)
            · exact absurd h (by simp)
          · exact absurd h (by simp)
        · exact absurd h (by simp)
      · exact absurd h (by simp)

set_option maxHeartbeats 1000000 in
/-- A `parseVal` success on input whose first non-whitespace character is
an opening brace is a JSON object. -/
theorem parseVal_isObj (fuel : Nat) (cs : List Char) (v : Json) (r : List Char)
    (h : parseVal fuel cs = some (v, r))
    (hh : (cs.dropWhile jsonWs).head? = some '{') : v.isObj = true := by
  cases fuel with
  | zero => exact Option.noConfusion h
  | succ fuel =>
      simp only [parseVal] at h
      cases hd : cs.dropWhile jsonWs with
      | nil => rw [hd] at hh; exact absurd hh (by simp)
      | cons c t =>
          rw [hd] at h hh
          simp only [List.head?_cons, Option.some.injEq] at hh
          subst hh
          simp only at h
          split at h
          · simp only [Option.some.injEq, Prod.mk.injEq] at h
            rw [← h.1]
            rfl
          · exact parseObjItems_isObj _ _ _ _ _ h

/-- Every candidate produced by the fenced scan starts with an opening
brace. -/
theorem matchFencedAt_starts (cs : List Char) (g : String) (cont : List Char)
    (h : matchFencedAt cs = some (g, cont)) : ∃ t, g.data = '{' :: t := by
  simp only [matchFencedAt] at h
  split at h
  · split at h
    · split at h
      · simp only [Option.some.injEq, Prod.mk.injEq] at h
        exact ⟨_, by rw [← h.1]⟩
      · exact absurd h (by simp)
    · exact absurd h (by simp)
  · exact absurd h (by simp)

/-- Every fenced-scan result starts with an opening brace. -/
theorem findAllFenced_starts :
    ∀ (fuel : Nat) (cs : List Char) (g : String),
      g ∈ findAllFenced fuel cs → ∃ t, g.data = '{' :: t := by
  intro fuel
  induction fuel with
  | zero => intro cs g h; simp [findAllFenced] at h
  | succ fuel ih =>
      intro cs g h
      cases cs with
      | nil => simp [findAllFenced] at h
      | cons c rest =>
          simp only [findAllFenced] at h
          split at h
          · rcases List.mem_cons.mp h with h' | h'
            · subst h'
              exact matchFencedAt_starts _ _ _ (by assumption)
            · exact ih _ _ h'
          · exact ih _ _ h

/-- Every bare-brace-scan result starts with an opening brace. -/
theorem findAllBraces_starts :
    ∀ (fuel : Nat) (cs : List Char) (g : String),
      g ∈ findAllBraces fuel cs → ∃ t, g.data = '{' :: t := by
  intro fuel
  induction fuel with
  | zero => intro cs g h; simp [findAllBraces] at h
  | succ fuel ih =>
      intro cs g h
      cases cs with
      | nil => cases h
      | cons c rest =>
          simp only [findAllBraces] at h
          by_cases hc : c = '{'
          · rw [if_pos hc] at h
            split at h
            · rcases List.mem_cons.mp h with h' | h'
              · exact ⟨_, by rw [h']⟩
              · exact ih _ _ h'
            · cases h
          · rw [if_neg hc] at h
            exact ih _ _ h

/-- A `json.loads` success on a string starting with an opening brace is a
JSON object. -/
theorem jsonLoads_obj (g : String) (v : Json) (h : jsonLoads g = some v)
    (hd : ∃ t, g.data = '{' :: t) : v.isObj = true := by
  obtain ⟨t, ht⟩ := hd
  simp only [jsonLoads] at h
  split at h
  · rename_i v' rest heq
    split at h
    · simp only [Option.some.injEq] at h
      subst h
      refine parseVal_isObj _ _ _ _ heq ?_
      rw [ht, List.dropWhile_cons, (by decide : jsonWs '{' = false)]
      simp
    · exact Option.noConfusion h
  · exact Option.noConfusion h

/-- The first decodable candidate is a JSON object whenever all candidates
start with an opening brace. -/
theorem tryLoadFirst_obj :
    ∀ (bs : List String) (v : Json), tryLoadFirst bs = some v →
      (∀ b ∈ bs, ∃ t, b.data = '{' :: t) → v.isObj = true := by
  intro bs
  induction bs with
  | nil => intro v h _; simp [tryLoadFirst] at h
  | cons b rest ih =>
      intro v h hall
      simp only [tryLoadFirst] at h
      split at h
      · rename_i parsed heq
        simp only [Option.some.injEq] at h
        subst h
        exact jsonLoads_obj _ _ heq (hall b (List.mem_cons_self _ _))
      · exact ih _ h (fun x hx => hall x (List.mem_cons_of_mem _ hx))

/-- Claim C4 (amended): for every string input the parser returns without
raising, and what it returns is always a JSON object (a dict); on blank
input it is the exact two-key "Empty response" fallback.  (The claim's
guarantee that the result always carries `reply` and `intent` keys fails —
see the counterexample — because a successfully decoded candidate object
is returned as-is.) -/
theorem c4_parser_robustness (s : String) :
    (get_json_content s).isObj = true ∧
    (pyBlank s = true →
      get_json_content s =
        Json.obj [("reply", Json.str "Empty response"),
                  ("intent", Json.str "other")]) := by
  constructor
  · cases hpb : pyBlank s with
    | true => simp [get_json_content, hpb, Json.isObj]
    | false =>
        simp only [get_json_content, hpb, Bool.false_eq_true, if_false]
        split
        · rename_i parsed heq
          refine tryLoadFirst_obj _ _ heq ?_
          intro b hb
          rw [List.mem_reverse] at hb
          split at hb
          · exact findAllBraces_starts _ _ _ hb
          · exact findAllFenced_starts _ _ _ hb
        · rfl
  · intro h
    simp [get_json_content, h]

/-- Witness for C4 (amended) at concrete inputs: the object guarantee on a
plain-text input and the exact fallback on a whitespace-only input. -/
theorem c4_parser_robustness_witness :
    (get_json_content "no json here").isObj = true ∧
    get_json_content "  " =
      Json.obj [("reply", Json.str "Empty response"),
                ("intent", Json.str "other")] :=
  ⟨(c4_parser_robustness "no json here").1,
   (c4_parser_robustness "  ").2 rfl⟩

/-- Claim C4 (counterexample): on input that is a single well-formed JSON
object without the contract's keys, the parser returns that object as-is —
the result has neither a `reply` nor an `intent` key. -/
theorem c4_missing_keys_counterexample :
    get_json_content "\x7b\"a\": 1\x7d" = Json.obj [("a", Json.num 1)] ∧
    (get_json_content "\x7b\"a\": 1\x7d").hasKey "reply" = false ∧
    (get_json_content "\x7b\"a\": 1\x7d").hasKey "intent" = false :=
  ⟨rfl, rfl, rfl⟩

/-- Inserting a fresh key into a Python dict appends the pair. -/
theorem dictInsert_fresh {α : Type} (acc : List (String × α)) (k : String) (v : α)
    (h : k ∉ acc.map Prod.fst) : dictInsert acc k v = acc ++ [(k, v)] := by
  induction acc with
  | nil => rfl
  | cons kv rest ih =>
      obtain ⟨k', v'⟩ := kv
      simp only [List.map_cons, List.mem_cons] at h
      push_neg at h
      simp only [dictInsert]
      rw [if_neg (fun hh : k' = k => h.1 hh.symm), ih h.2]
      rfl

/-- The folded dict construction is the identity while keys stay fresh. -/
theorem pyDict_go_nodup {α : Type} :
    ∀ (xs acc : List (String × α)), ((acc ++ xs).map Prod.fst).Nodup →
      List.foldl (fun acc kv => dictInsert acc kv.1 kv.2) acc xs = acc ++ xs := by
  intro xs
  induction xs with
  | nil => intro acc _; simp
  | cons kv rest ih =>
      intro acc h
      have hk : kv.1 ∉ acc.map Prod.fst := by
        rw [List.map_append] at h
        intro hmem
        exact (List.nodup_append.mp h).2.2 hmem (by simp)
      have heq : (acc ++ [(kv.1, kv.2)]) ++ rest = acc ++ kv :: rest := by simp
      simp only [List.foldl_cons]
      rw [dictInsert_fresh acc kv.1 kv.2 hk,
          ih (acc ++ [(kv.1, kv.2)]) (by rw [heq]; exact h), heq]

/-- `dict(items)` is the identity on lists with pairwise-distinct keys. -/
theorem pyDict_nodup {α : Type} (xs : List (String × α))
    (h : (xs.map Prod.fst).Nodup) : pyDict xs = xs := by
  have := pyDict_go_nodup xs [] (by simpa using h)
  simpa [pyDict] using this

/-- Strings with equal character data are equal. -/
theorem string_eq_of_data (a b : String) (h : a.data = b.data) : a = b := by
  cases a
  cases b
  exact congrArg String.mk h

/-- Extension by a fixed parent key is injective. -/
theorem joinKey_injective (parent : String) :
    Function.Injective (joinKey parent) := by
  intro a b h
  by_cases hp : parent = ""
  · simpa [joinKey, hp] using h
  · simp only [joinKey, if_neg hp] at h
    have hd := congrArg String.data h
    simp only [String.data_append, List.append_assoc] at hd
    exact string_eq_of_data a b
      (List.append_cancel_left (List.append_cancel_left hd))

/-- A space-joined key is never the empty string. -/
theorem append_space_ne_empty (a k : String) : a ++ " " ++ k ≠ "" := by
  intro hh
  have hlen := congrArg String.length hh
  rw [String.length_append, String.length_append] at hlen
  have h1 : (" " : String).length = 1 := rfl
  have h0 : ("" : String).length = 0 := rfl
  rw [h1, h0] at hlen
  omega

/-- Joining a nonempty middle key associates with the source's
accumulator-style extension. -/
theorem joinKey_assoc (parent k k1 : String) (hk : k ≠ "") :
    joinKey parent (k ++ " " ++ k1) = joinKey (joinKey parent k) k1 := by
  by_cases hp : parent = ""
  · simp only [joinKey, if_pos hp, if_neg hk]
  · have h2 : parent ++ " " ++ k ≠ "" := append_space_ne_empty parent k
    simp only [joinKey, if_neg hp, if_neg h2]
    simp [String.append_assoc]

/-- The source's accumulator flattening agrees with the spec-side direct
flattening, with every flattened key extended by the ambient parent key,
provided keys are nonempty and the flattened keys are distinct (so the
interleaved `dict(...)` rebuilds keep every entry). -/
theorem flattenItems_eq_spec (kvs : List (String × PyVal)) (parent : String) :
    keysOk (PyVal.dict kvs) = true → (specKeys kvs).Nodup →
    flattenItems kvs parent =
      (specFlatten kvs).map (fun kv => (joinKey parent kv.1, kv.2)) := by
  induction kvs, parent using flattenItems.induct with
  | case1 parent =>
      intro _ _
      simp [flattenItems, specFlatten]
  | case2 k rest parent_key kvs ih1 ih2 =>
      intro hok hnd
      simp only [keysOk, Bool.and_eq_true, Bool.not_eq_true',
        beq_eq_false_iff_ne] at hok
      obtain ⟨⟨hk, hokv⟩, hokrest⟩ := hok
      have hsf : specFlatten ((k, PyVal.dict kvs) :: rest) =
          (specFlatten kvs).map (fun kv => (k ++ " " ++ kv.1, kv.2)) ++
            specFlatten rest := by
        simp only [specFlatten]
      replace hnd : ((specKeys kvs).map (fun x => k ++ " " ++ x) ++
          (specFlatten rest).map Prod.fst).Nodup := by
        have hmm : ((specFlatten kvs).map
              (fun kv => (k ++ " " ++ kv.1, kv.2))).map Prod.fst =
            (specKeys kvs).map (fun x => k ++ " " ++ x) := by
          simp only [specKeys, List.map_map]
          rfl
        have := hnd
        simp only [specKeys, hsf, List.map_append] at this
        rw [show (specFlatten kvs).map ((fun kv => (k ++ " " ++ kv.1, kv.2)) ·) = (specFlatten kvs).map (fun kv => (k ++ " " ++ kv.1, kv.2)) from rfl] at this
        rw [hmm] at this
        exact this
      have hnd1 : (specKeys kvs).Nodup := ((List.nodup_append.mp hnd).1).of_map _
      have hnd2 : (specKeys rest).Nodup := (List.nodup_append.mp hnd).2.1
      have hfi : flattenItems ((k, PyVal.dict kvs) :: rest) parent_key =
          pyDict (flattenItems kvs (joinKey parent_key k)) ++
            flattenItems rest parent_key := by
        simp only [flattenItems]
      rw [hfi, ih1 hokv hnd1, ih2 hokrest hnd2]
      have hkeys : (((specFlatten kvs).map
            (fun kv => (joinKey (joinKey parent_key k) kv.1, kv.2))).map
              Prod.fst).Nodup := by
        have hcomp : ((specFlatten kvs).map
              (fun kv => (joinKey (joinKey parent_key k) kv.1, kv.2))).map Prod.fst =
            (specKeys kvs).map (joinKey (joinKey parent_key k)) := by
          simp only [specKeys, List.map_map]
          rfl
        rw [hcomp]
        exact hnd1.map (joinKey_injective _)
      rw [pyDict_nodup _ hkeys, hsf, List.map_append, List.map_map]
      congr 1
      refine List.map_congr_left ?_
      intro kv _
      show (joinKey (joinKey parent_key k) kv.1, kv.2) =
        (joinKey parent_key (k ++ " " ++ kv.1), kv.2)
      rw [joinKey_assoc parent_key k kv.1 hk]
  | case3 k v rest parent_key hnotdict ih =>
      intro hok hnd
      simp only [keysOk, Bool.and_eq_true] at hok
      cases v with
      | dict kvs => exact (hnotdict kvs rfl).elim
      | s sv =>
          replace hnd : (k :: (specFlatten rest).map Prod.fst).Nodup := by
            simpa [specKeys, specFlatten] using hnd
          simp only [flattenItems, specFlatten, List.map_cons]
          exact congrArg (List.cons _) (ih hok.2 hnd.of_cons)
      | i iv =>
          replace hnd : (k :: (specFlatten rest).map Prod.fst).Nodup := by
            simpa [specKeys, specFlatten] using hnd
          simp only [flattenItems, specFlatten, List.map_cons]
          exact congrArg (List.cons _) (ih hok.2 hnd.of_cons)
      | b bv =>
          replace hnd : (k :: (specFlatten rest).map Prod.fst).Nodup := by
            simpa [specKeys, specFlatten] using hnd
          simp only [flattenItems, specFlatten, List.map_cons]
          exact congrArg (List.cons _) (ih hok.2 hnd.of_cons)
      | list xs =>
          replace hnd : (k :: (specFlatten rest).map Prod.fst).Nodup := by
            simpa [specKeys, specFlatten] using hnd
          simp only [flattenItems, specFlatten, List.map_cons]
          exact congrArg (List.cons _) (ih hok.2 hnd.of_cons)

/-- At the top level (`parent_key=''`) the source flattening equals the
spec-side flattening outright. -/
theorem flatten_dict_eq_spec (kvs : List (String × PyVal))
    (h1 : keysOk (PyVal.dict kvs) = true) (h2 : (specKeys kvs).Nodup) :
    flatten_dict kvs "" = specFlatten kvs := by
  unfold flatten_dict
  rw [flattenItems_eq_spec kvs "" h1 h2]
  have hjk : (fun kv : String × PyVal => (joinKey "" kv.1, kv.2)) = id := by
    funext kv
    simp [joinKey]
  rw [hjk, List.map_id]
  exact pyDict_nodup _ (show ((specFlatten kvs).map Prod.fst).Nodup from h2)

/-- Claim C5 (amended): structured results are rendered one bullet line
per flattened entry, nested keys joined with a space, each flattened key
having underscores replaced by spaces and then being Python-`capitalize`d
(first character upper-cased, the rest lower-cased — not per-word title
case); list results become one bullet per item and scalar results
stringify directly.  Stated as: the source renderer coincides with the
spec-side renderer built on `capitalize`, for values with nonempty,
collision-free flattened keys. -/
theorem c5_render_refinement (r : PyVal) (h1 : keysOk r = true)
    (h2 : flatKeysNodup r) : formatToolResult r = specRender r := by
  cases r with
  | dict kvs =>
      show String.intercalate "\n" ((flatten_dict kvs "").map formatLine) = _
      rw [flatten_dict_eq_spec kvs h1 h2]
      rfl
  | s v => rfl
  | i v => rfl
  | b v => rfl
  | list xs => rfl

/-- Witness for C5 (amended) on a nested store-style dict. -/
theorem c5_render_refinement_witness :
    keysOk (PyVal.dict [("name", PyVal.s "TechStore"),
      ("hours", PyVal.dict [("weekdays", PyVal.s "9-18"),
                            ("weekends", PyVal.s "10-14")])]) = true ∧
    flatKeysNodup (PyVal.dict [("name", PyVal.s "TechStore"),
      ("hours", PyVal.dict [("weekdays", PyVal.s "9-18"),
                            ("weekends", PyVal.s "10-14")])]) ∧
    formatToolResult (PyVal.dict [("name", PyVal.s "TechStore"),
      ("hours", PyVal.dict [("weekdays", PyVal.s "9-18"),
                            ("weekends", PyVal.s "10-14")])]) =
      specRender (PyVal.dict [("name", PyVal.s "TechStore"),
        ("hours", PyVal.dict [("weekdays", PyVal.s "9-18"),
                              ("weekends", PyVal.s "10-14")])]) := by
  have h1 : keysOk (PyVal.dict [("name", PyVal.s "TechStore"),
      ("hours", PyVal.dict [("weekdays", PyVal.s "9-18"),
                            ("weekends", PyVal.s "10-14")])]) = true := by
    simp only [keysOk]
    decide
  have h2 : flatKeysNodup (PyVal.dict [("name", PyVal.s "TechStore"),
      ("hours", PyVal.dict [("weekdays", PyVal.s "9-18"),
                            ("weekends", PyVal.s "10-14")])]) := by
    simp only [flatKeysNodup, specKeys, specFlatten, List.map_append,
      List.map_cons, List.map_nil]
    decide
  exact ⟨h1, h2, c5_render_refinement _ h1 h2⟩

/-- Claim C5 (counterexample): keys are `capitalize`d, not title-cased —
on the key `payment_methods` the tool renders "Payment methods" where the
claimed title casing would render "Payment Methods". -/
theorem c5_title_case_counterexample :
    formatToolResult (PyVal.dict [("payment_methods", PyVal.s "Cash")]) =
      "- Payment methods: Cash" ∧
    specLineTitle ("payment_methods", PyVal.s "Cash") =
      "- Payment Methods: Cash" ∧
    formatToolResult (PyVal.dict [("payment_methods", PyVal.s "Cash")]) ≠
      specLineTitle ("payment_methods", PyVal.s "Cash") ∧
    get_store_data
        (fun _ => Except.ok (PyVal.dict [("payment_methods", PyVal.s "Cash")]))
        "store_payment_methods" =
      ⟨"- Payment methods: Cash", true⟩ := by
  have e1 : formatToolResult (PyVal.dict [("payment_methods", PyVal.s "Cash")]) =
      "- Payment methods: Cash" := by
    simp only [formatToolResult, flatten_dict, flattenItems, pyDict,
      List.foldl_cons, List.foldl_nil, dictInsert, List.map_cons, List.map_nil,
      formatLine, pyStr]
    decide
  have e2 : specLineTitle ("payment_methods", PyVal.s "Cash") =
      "- Payment Methods: Cash" := by
    simp only [specLineTitle, pyStr]
    decide
  refine ⟨e1, e2, ?_, ?_⟩
  · rw [e1, e2]
    decide
  · show (⟨formatToolResult (PyVal.dict [("payment_methods", PyVal.s "Cash")]),
        true⟩ : ToolReply) = ⟨"- Payment methods: Cash", true⟩
    rw [e1]

end StoreBot
